import Mathlib

/-!
Shallow embedding of the `aurelia-bs` widget library (TypeScript sources in
`src/grid/grid.ts`, the tabs widget and the searchbox widget) together with
proofs about the grid's client-side filtering, sorting, pagination, selection
handling, scroll-edge detection, the searchbox click event and the tabs
state synchronisation.

Modelling conventions:
* JavaScript runtime values that flow through the grid rows are modelled by
  the inductive type `Value` (undefined, strings, numbers, plain objects).
  JS numbers are modelled as integers; the claims under scrutiny only involve
  integer data.
* JS strings are Lean `String`s; the handful of string operations the code
  uses (`toLowerCase`, `trim`, `split`, `indexOf`) are re-implemented by
  structural recursion on the character list so that all of them reduce
  inside the kernel.
* Mutable class fields become fields of Lean structures and every method is
  a function from the old state (plus arguments) to the result.
-/

namespace AureliaBs

/-- JavaScript value as it appears in grid rows: `undefined`, a string, an
integer number, or a plain object given by its property list. -/
inductive Value where
  | undefined : Value
  | str : String → Value
  | num : Int → Value
  | obj : List (String × Value) → Value

/-- Structural equality of values, modelling JavaScript `===` on the data of
the model (JS compares objects by reference; the claims only ever compare
primitives, where `===` is structural). -/
def Value.beq : Value → Value → Bool
  | .undefined, .undefined => true
  | .str a, .str b => a == b
  | .num a, .num b => a == b
  | .obj a, .obj b => go a b
  | _, _ => false
where
  go : List (String × Value) → List (String × Value) → Bool
    | [], [] => true
    | (k1, v1) :: r1, (k2, v2) :: r2 => k1 == k2 && Value.beq v1 v2 && go r1 r2
    | _, _ => false

instance : BEq Value := ⟨Value.beq⟩

/-- JavaScript truthiness of a `Value` (`undefined`, the empty string and the
number 0 are falsy, every object is truthy). -/
def truthy : Value → Bool
  | .undefined => false
  | .str s => s ≠ ""
  | .num n => n ≠ 0
  | .obj _ => true

/-- JavaScript property access `v[k]`: on a plain object the first binding of
the key (or `undefined` when absent); on primitives the model answers
`undefined`. -/
def getProp : Value → String → Value
  | .obj fields, k => ((fields.find? (fun kv => kv.1 = k)).map Prod.snd).getD .undefined
  | _, _ => .undefined

/-- JavaScript `String(v)` conversion for the values of the model. -/
def jsString : Value → String
  | .undefined => "undefined"
  | .str s => s
  | .num n => toString n
  | .obj _ => "[object Object]"

/-- Splitting a character list at every occurrence of the separator, the way
JavaScript `String.prototype.split` does (consecutive separators produce
empty fragments). -/
def splitCh (sep : Char) : List Char → List (List Char)
  | [] => [[]]
  | c :: cs =>
    let r := splitCh sep cs
    if c = sep then [] :: r
    else (c :: r.headD []) :: r.tail

/-- JavaScript `s.split(sep)` for a one-character separator. -/
def jsSplit (sep : Char) (s : String) : List String :=
  (splitCh sep s.data).map String.mk

/-- JavaScript `s.toLowerCase()` (ASCII-faithful). -/
def jsToLower (s : String) : String := ⟨s.data.map Char.toLower⟩

/-- Whitespace recognised by the model of JavaScript `trim` (space, tab and
line breaks; the exotic Unicode space classes do not occur in the claims). -/
def isWS (c : Char) : Bool := c = ' ' ∨ c = '\t' ∨ c = '\n' ∨ c = '\r'

/-- JavaScript `s.trim()`. -/
def jsTrim (s : String) : String :=
  ⟨((s.data.dropWhile isWS).reverse.dropWhile isWS).reverse⟩

/-- JavaScript `hay.indexOf(needle) !== -1`: the needle occurs as a
contiguous substring of the haystack (the empty needle always occurs). -/
def strContains (hay needle : String) : Bool :=
  decide (needle.data <:+: hay.data)

/-- Model of the `Column` view-model as used by `grid.ts`: the `searchable`
flag, the (dot-path) field list, and the optional custom `matcher` and
`sorter` delegates. -/
structure Column where
  searchable : Bool
  field : List String
  matcher : Option (String → List Value → Bool)
  sorter : Option (Value → Value → Int)

/-- Sort order of the grid, the strings `'asc'` and `'desc'` in the source. -/
inductive SortOrder where
  | asc : SortOrder
  | desc : SortOrder
deriving DecidableEq

/-- Selection mode of the grid (`SelectionMode` enum in `grid.ts`). -/
inductive SelectionMode where
  | none : SelectionMode
  | single : SelectionMode
  | multiple : SelectionMode
deriving DecidableEq

/-- State of the `Grid` class restricted to the fields that the verified
methods read or write.  The delegate fields (`comparer`, the locale-aware
string comparison used by `localeCompare`) are modelled as function-valued
fields. -/
structure Grid where
  columns : List Column
  filter : String
  sortColumn : Option Column
  sortOrder : SortOrder
  localeCompare : String → String → Int
  rows : Option (List Value)
  actualRows : Option (List Value)
  currentIndex : Int
  pageSize : Int
  filteredCount : Int
  selectedItem : Value
  selectedItems : Option (List Value)
  selectionMode : SelectionMode
  enabled : Bool
  comparer : Value → Value → Bool

namespace Grid

/-- `Grid.getObjectValueFromPath`: walk the dot-separated path through the
object, stepping only while the intermediate result is truthy. -/
def getObjectValueFromPath (field : String) (obj : Value) : Value :=
  (jsSplit '.' field).foldl
    (fun result part => if truthy result then getProp result part else .undefined) obj

/-- The lower-cased, trimmed filter of `Grid.filterItems`
(`this.filter ? this.filter.toLowerCase().trim() : ''`). -/
def filterTerm (g : Grid) : String :=
  if g.filter ≠ "" then jsTrim (jsToLower g.filter) else ""

/-- One column's verdict for one search term in `Grid.filterItems`: an
unsearchable column never matches; a column with a custom matcher delegates
to it; otherwise some field value's string conversion must contain the term
(case-insensitively). -/
def columnMatches (column : Column) (row : Value) (t : String) : Bool :=
  if !column.searchable then false
  else
    let values := column.field.map (fun veld => getObjectValueFromPath veld row)
    match column.matcher with
    | some m => m t values
    | none => values.any (fun v => strContains (jsToLower (jsString v)) t)

/-- `Grid.filterItems`: keep the rows for which every fragment of the
filter, split at single spaces, is matched by some column; an empty (or
whitespace-only) filter returns the input array itself. -/
def filterItems (g : Grid) (items : List Value) : List Value :=
  let term := filterTerm g
  let terms := jsSplit ' ' term
  if term = "" then items
  else items.filter (fun row => terms.all (fun t => g.columns.any (fun c => columnMatches c row t)))

end Grid

/-- JavaScript `ToPrimitive` with number hint as used by the `<` operator:
plain objects stringify to `"[object Object]"`, primitives are unchanged. -/
def toPrimitive : Value → Value
  | .obj _ => .str "[object Object]"
  | v => v

/-- JavaScript `ToNumber` on a string (restricted to the integer literals
that occur in the model; `none` stands for `NaN`). -/
def strToNumber (s : String) : Option Int :=
  let t := jsTrim s
  if t = "" then some 0 else t.toInt?

/-- JavaScript `ToNumber` on a primitive value (`none` stands for `NaN`). -/
def toNumber : Value → Option Int
  | .num n => some n
  | .str s => strToNumber s
  | _ => none

/-- Lexicographic comparison of character lists by code point, the way
JavaScript compares two strings with `<`. -/
def charListLt : List Char → List Char → Bool
  | [], [] => false
  | [], _ :: _ => true
  | _ :: _, [] => false
  | a :: as, b :: bs => if a.val < b.val then true else if a = b then charListLt as bs else false

/-- JavaScript `a < b`: after `ToPrimitive`, two strings compare
lexicographically, otherwise both sides go through `ToNumber` and `NaN`
makes the comparison false. -/
def jsLess (a b : Value) : Bool :=
  match toPrimitive a, toPrimitive b with
  | .str x, .str y => charListLt x.data y.data
  | pa, pb =>
    match toNumber pa, toNumber pb with
    | some x, some y => decide (x < y)
    | _, _ => false

/-- The `typeof v === 'string'` test of the source. -/
def isStr : Value → Bool
  | .str _ => true
  | _ => false

/-- The `v === undefined` test of the source. -/
def isUndefined : Value → Bool
  | .undefined => true
  | _ => false

namespace Grid

/-- `Grid.defaultCompare`: walk the two value lists in parallel; an
`undefined` entry sorts before a defined one, a string entry is compared by
`localeCompare` (against the string conversion of the other side), any
other unequal pair is decided by `<`, and ties move on to the next entry.
Out-of-range accesses `bValues[i]` yield `undefined`, as in JavaScript. -/
def defaultCompare (locale : String → String → Int) : List Value → List Value → Int
  | [], _ => 0
  | a :: as, bs =>
    let b := bs.headD .undefined
    if isUndefined a && !isUndefined b then -1
    else if isUndefined b && !isUndefined a then 1
    else
      match a with
      | .str sa =>
        let comp := locale sa (jsString b)
        if comp ≠ 0 then comp else defaultCompare locale as bs.tail
      | _ =>
        if !(Value.beq a b) then (if jsLess a b then -1 else 1)
        else defaultCompare locale as bs.tail

/-- Model of `Array.prototype.sort` with a numeric comparator: a stable sort
placing `a` before `b` whenever `cmp a b ≤ 0` (the ECMAScript specification
mandates a stable sort consistent with the comparator). -/
def jsSortBy (cmp : Value → Value → Int) (items : List Value) : List Value :=
  items.insertionSort (fun a b => cmp a b ≤ 0)

/-- The `orderMultiplier` of `Grid.sortItems`
(`this.sortOrder === 'asc' ? 1 : -1`). -/
def orderMultiplier (g : Grid) : Int :=
  if g.sortOrder = .asc then 1 else -1

/-- `Grid.sortItems`: with a sort column carrying a custom sorter, sort a
copy by the sorter times the order multiplier (`-1` for `'desc'`); with a
sort column without a sorter, sort a copy by `defaultCompare` on the
column's field values times the multiplier; with no sort column return the
input array itself. -/
def sortItems (g : Grid) (items : List Value) : List Value :=
  let orderMultiplier : Int := g.orderMultiplier
  match g.sortColumn with
  | some col =>
    match col.sorter with
    | some sorter => jsSortBy (fun a b => sorter a b * orderMultiplier) items
    | none =>
      let fields := col.field
      jsSortBy (fun aRow bRow =>
        let aValues := fields.map (fun field => getObjectValueFromPath field aRow)
        let bValues := fields.map (fun field => getObjectValueFromPath field bRow)
        defaultCompare g.localeCompare aValues bValues * orderMultiplier) items
  | none => items

end Grid

/-- `Math.floor (a / b)` on integers for a positive divisor `b`. -/
def floorDiv (a b : Int) : Int := Int.fdiv a b

/-- `Math.ceil (a / b)` on integers for a positive divisor `b`. -/
def ceilDiv (a b : Int) : Int := -(Int.fdiv (-a) b)

namespace Grid

/-- `Grid.getPageNumberForIndex`: `Math.floor(index / pageSize)`. -/
def getPageNumberForIndex (g : Grid) (index : Int) : Int :=
  floorDiv index g.pageSize

/-- The `currentPage` computed property. -/
def currentPage (g : Grid) : Int :=
  g.getPageNumberForIndex g.currentIndex

/-- The `pageCount` computed property:
`Math.ceil((filteredCount > 0 ? filteredCount : 1) / pageSize)`. -/
def pageCount (g : Grid) : Int :=
  ceilDiv (if g.filteredCount > 0 then g.filteredCount else 1) g.pageSize

end Grid

/-- The `GridDataRequest` interface of `grid.ts`. -/
structure GridDataRequest where
  skip : Int
  take : Int
  sortColumn : Option Column
  sortOrder : SortOrder
  filter : String

/-- The `GridDataResponse` interface of `grid.ts` (`items` is `undefined`
when the grid has no rows). -/
structure GridDataResponse where
  items : Option (List Value)
  filteredCount : Int
  totalCount : Int

/-- Clamp a (possibly negative, relative) JavaScript slice index into the
range `0 .. len`. -/
def jsSliceIdx (len : Nat) (i : Int) : Nat :=
  if i < 0 then ((len : Int) + i).toNat else min i.toNat len

/-- JavaScript `l.slice(start, stop)`. -/
def jsSlice (l : List Value) (start stop : Int) : List Value :=
  (l.take (jsSliceIdx l.length stop)).drop (jsSliceIdx l.length start)

namespace Grid

/-- `Grid.getCurrentGridDataRequest`. -/
def getCurrentGridDataRequest (g : Grid) : GridDataRequest :=
  { skip := g.pageSize * g.currentPage
    take := g.pageSize
    sortColumn := g.sortColumn
    sortOrder := g.sortOrder
    filter := g.filter }

/-- The default `loadData` delegate: answer with a page sliced out of
`actualRows` and the two counts (`-1` when the backing array is
`undefined`). -/
def loadData (g : Grid) (request : GridDataRequest) : GridDataResponse :=
  { items := g.actualRows.map (fun rows => jsSlice rows request.skip (request.skip + request.take))
    filteredCount := match g.actualRows with | some rows => (rows.length : Int) | none => -1
    totalCount := match g.rows with | some rows => (rows.length : Int) | none => -1 }

/-- `Grid.showPage`: move to the requested page when it differs from the
current page and lies in range, reporting success; the awaited data reload
(`refreshInternal`) is modelled separately. -/
def showPage (g : Grid) (pageNumber : Int) : Grid × Bool :=
  if pageNumber ≠ g.currentPage ∧ pageNumber ≥ 0 ∧ pageNumber < g.pageCount then
    ({ g with currentIndex := g.pageSize * pageNumber }, true)
  else (g, false)

/-- The default `comparer` delegate of the grid:
`a && a.id && b && b.id ? a.id === b.id : a === b`. -/
def defaultComparer (a b : Value) : Bool :=
  if truthy a && truthy (getProp a "id") && truthy b && truthy (getProp b "id")
  then Value.beq (getProp a "id") (getProp b "id")
  else Value.beq a b

end Grid

/-- Payload of the `'selection-changed'` custom event (the `detail`
object built by `dispatchSelectionChangedEvent`). -/
structure SelectionDetail where
  selectedItem : Value
  selectedItems : Option (List Value)

namespace Grid

/-- `Grid.selectRow` together with the custom events it dispatches: each
event is a name paired with its detail, and `dispatchSelectionChangedEvent`
reads the post-update selection (its `setTimeout` callback runs after the
assignments). -/
def selectRow (g : Grid) (row : Value) : Grid × List (String × SelectionDetail) :=
  if g.enabled then
    match g.selectionMode with
    | .single =>
      let g' := { g with selectedItem := if g.comparer g.selectedItem row then .undefined else row }
      (g', [("selection-changed", ⟨g'.selectedItem, g'.selectedItems⟩)])
    | .multiple =>
      let newItems : List Value :=
        match g.selectedItems with
        | some items =>
          if (items.filter (fun a => g.comparer a row)).length > 0
          then items.filter (fun i => !(g.comparer i row))
          else items ++ [row]
        | none => [row]
      let newItem : Value := if newItems.length ≤ 1 then newItems.headD .undefined else .undefined
      let g' := { g with selectedItems := some newItems, selectedItem := newItem }
      (g', [("selection-changed", ⟨g'.selectedItem, g'.selectedItems⟩)])
    | .none => (g, [])
  else (g, [])

end Grid

/-- State of the `Searchbox` widget restricted to the fields `onClick`
reads. -/
structure Searchbox where
  enabled : Bool
  value : String
  allowEmpty : Bool

namespace Searchbox

/-- `Searchbox.onClick`: report whether the `'click'` custom event is
dispatched (`this.enabled && (this.value || this.allowEmpty)`). -/
def onClick (s : Searchbox) : Bool :=
  s.enabled && (s.value ≠ "" || s.allowEmpty)

end Searchbox

/-- Observable state of the grid's body element during scrolling: the
geometry read by `onBodyScroll` (with `borderHeight` the cached sum of the
computed top and bottom border widths) and the two scroll-edge CSS
classes. -/
structure BodyState where
  scrollHeight : Int
  offsetHeight : Int
  borderHeight : Int
  scrollTop : Int
  scrollableTop : Bool
  scrollableBottom : Bool
deriving DecidableEq

namespace Grid

/-- The `scrollBottom` quantity of `Grid.onBodyScroll`. -/
def scrollBottom (s : BodyState) : Int :=
  s.scrollHeight - s.offsetHeight + s.borderHeight

/-- `Grid.onBodyScroll`: drop both scroll-edge classes when `scrollBottom`
is zero, otherwise toggle `scrollable-top` on `scrollTop ≠ 0` and
`scrollable-bottom` on `scrollTop ≠ scrollBottom`. -/
def onBodyScroll (s : BodyState) : BodyState :=
  if scrollBottom s = 0 then
    { s with scrollableTop := false, scrollableBottom := false }
  else
    let s1 := if s.scrollTop = 0
      then { s with scrollableTop := false }
      else { s with scrollableTop := true }
    if s.scrollTop = scrollBottom s
      then { s1 with scrollableBottom := false }
      else { s1 with scrollableBottom := true }

end Grid

/-- A heap of JavaScript arrays: array references are indices into the list
of allocated contents.  This models array identity, so that the
non-mutation claims about `filterItems`/`sortItems` are statable. -/
structure Store where
  arrays : List (List Value)

/-- Contents of the array behind a reference. -/
def Store.read (s : Store) (r : Nat) : List Value := s.arrays.getD r []

/-- Allocate a fresh array (as `filter`, `slice` and `concat` do). -/
def Store.alloc (s : Store) (l : List Value) : Store × Nat :=
  (⟨s.arrays ++ [l]⟩, s.arrays.length)

/-- In-place update of an existing array (as `sort` does). -/
def Store.write (s : Store) (r : Nat) (l : List Value) : Store :=
  ⟨s.arrays.set r l⟩

namespace Grid

/-- `Grid.filterItems` at the level of array references: an empty filter
returns the argument array itself, otherwise `items.filter` allocates a
fresh array. -/
def filterItemsRef (g : Grid) (s : Store) (r : Nat) : Store × Nat :=
  if filterTerm g = "" then (s, r) else s.alloc (filterItems g (s.read r))

/-- `Grid.sortItems` at the level of array references: with no sort column
the argument array itself is returned; otherwise `items.slice()` allocates
a copy and `.sort` mutates only that copy. -/
def sortItemsRef (g : Grid) (s : Store) (r : Nat) : Store × Nat :=
  match g.sortColumn with
  | none => (s, r)
  | some _ =>
    let a := s.alloc (s.read r)
    (Store.write a.1 a.2 (sortItems g (Store.read a.1 a.2)), a.2)

/-- The `actualRows` computation of `refreshInternal`
(`this.sortItems(this.filterItems(this.rows))`) on array references. -/
def refreshActualRows (g : Grid) (s : Store) (r : Nat) : Store × Nat :=
  let fr := filterItemsRef g s r
  sortItemsRef g fr.1 fr.2

end Grid

/-- The `Tab` view-model restricted to the fields the tabs widget reads
(`id` and the `active` flag). -/
structure Tab where
  id : String
  active : Bool
deriving DecidableEq

instance : Inhabited Tab := ⟨⟨"", false⟩⟩

/-- State of the `Tabs` widget.  A tab reference is modelled by its
position in `internalTabs` (JavaScript compares tabs by object identity,
and every tab object occurs at exactly one position). -/
structure TabsState where
  internalTabs : List Tab
  selectedTab : Option Nat
  selectedTabId : String
deriving DecidableEq

namespace Tabs

/-- `Tabs.selectTab`: when the referenced tab is in the list, mark exactly
it active and, only when `selectedTabId` differs from its id, record it as
the selected tab and publish its id; when it is not in the list, throw
`'Tab could not be found.'` (the second component) without touching the
state. -/
def selectTab (s : TabsState) (i : Nat) : TabsState × Option String :=
  if i < s.internalTabs.length then
    let tabs := s.internalTabs.mapIdx (fun j t => { t with active := j == i })
    let tab := s.internalTabs.getD i default
    if s.selectedTabId ≠ tab.id then
      ({ internalTabs := tabs, selectedTab := some i, selectedTabId := tab.id }, none)
    else
      ({ s with internalTabs := tabs }, none)
  else (s, some "Tab could not be found.")

/-- Position of `internalTabs.filter(t => t.id === tid)[0]` in the tab
list (`none` when no tab carries the id). -/
def firstMatchIdx (tabs : List Tab) (tid : String) : Option Nat :=
  match tabs with
  | [] => none
  | t :: ts => if t.id = tid then some 0 else (firstMatchIdx ts tid).map (· + 1)

/-- `Tabs.updateSelectedTab`: select the first tab whose id equals a
non-empty `selectedTabId` when one exists, otherwise select the first tab
when the list is non-empty. -/
def updateSelectedTab (s : TabsState) : TabsState × Option String :=
  match (if s.selectedTabId ≠ "" then firstMatchIdx s.internalTabs s.selectedTabId else none) with
  | some i => selectTab s i
  | none => if 0 < s.internalTabs.length then selectTab s 0 else (s, none)

end Tabs

/-- Splitting a character list at every whitespace character. -/
def splitWS : List Char → List (List Char)
  | [] => [[]]
  | c :: cs =>
    let r := splitWS cs
    if isWS c then [] :: r
    else (c :: r.headD []) :: r.tail

/-- The whitespace-separated (non-empty) fragments of a string. -/
def wsTerms (s : String) : List String :=
  ((splitWS s.data).filter (fun w => w ≠ [])).map String.mk

namespace Grid

/-- Formalisation of the specification sentence for the grid's client-side
filtering, which speaks of the whitespace-separated terms of the
lower-cased, trimmed filter; to be compared with `filterItems`, which
splits at single spaces only. -/
def filterItemsSpec (g : Grid) (items : List Value) : List Value :=
  let term := filterTerm g
  let terms := wsTerms term
  if term = "" then items
  else items.filter (fun row => terms.all (fun t => g.columns.any (fun c => columnMatches c row t)))

end Grid

/-! ## Verification fixtures -/

/-- Grid state with every field inert; the concrete examples below override
just the fields they exercise. -/
def blankGrid : Grid where
  columns := []
  filter := ""
  sortColumn := none
  sortOrder := .asc
  localeCompare := fun _ _ => 0
  rows := none
  actualRows := none
  currentIndex := 0
  pageSize := 0
  filteredCount := -1
  selectedItem := .undefined
  selectedItems := some []
  selectionMode := .none
  enabled := true
  comparer := Grid.defaultComparer

/-- The property "row matches term" exactly as the specification states it:
some searchable column matches the term, through its custom matcher when it
has one and through a case-insensitive substring test on the string
conversions of its field values otherwise. -/
def Grid.rowMatchesClaim (g : Grid) (row : Value) (t : String) : Prop :=
  ∃ c ∈ g.columns,
    c.searchable = true ∧
    ((∃ m, c.matcher = some m ∧
        m t (c.field.map (fun f => Grid.getObjectValueFromPath f row)) = true) ∨
     (c.matcher = none ∧
        ∃ v ∈ c.field.map (fun f => Grid.getObjectValueFromPath f row),
          strContains (jsToLower (jsString v)) t = true))

/-- Grid whose filter contains a tab between two letters: the specification
sentence reads it as two whitespace-separated terms, the code as one
space-separated term. -/
def gridC1 : Grid :=
  { blankGrid with
      columns := [{ searchable := true, field := ["x"], matcher := none, sorter := none }]
      filter := "a\tb" }

/-- A row whose field value contains both letters of the filter but not the
tab. -/
def rowC1 : Value := .obj [("x", .str "ab")]

/-- Grid used by the witness of the amended filtering theorem. -/
def gridC1W : Grid :=
  { blankGrid with
      columns := [{ searchable := true, field := ["x"], matcher := none, sorter := none }]
      filter := "cat dog" }

/-- Rows used by the witness of the amended filtering theorem. -/
def rowsC1W : List Value :=
  [.obj [("x", .str "catalog dogma")], .obj [("x", .str "cat")]]

/-- Numeric payload of a value (0 for non-numbers), used by the concrete
sorter of the sorting witness. -/
def numOf : Value → Int
  | .num n => n
  | _ => 0

/-- A consistent custom sorter comparing the numeric payloads. -/
def sorterC2 : Value → Value → Int := fun a b => numOf a - numOf b

/-- Sort column of the sorting witness. -/
def colC2 : Column :=
  { searchable := true, field := ["x"], matcher := none, sorter := some sorterC2 }

/-- Grid of the sorting witness. -/
def gridC2 : Grid := { blankGrid with sortColumn := some colC2, sortOrder := .asc }

/-- Rows of the sorting witness. -/
def itemsC2 : List Value := [.num 3, .num 1, .num 2]

/-- Grid of the pagination witness: page size 2, five filtered rows, the
current index on the third page. -/
def gridC3 : Grid :=
  { blankGrid with
      pageSize := 2
      filteredCount := 5
      currentIndex := 5
      actualRows := some [.num 1, .num 2, .num 3, .num 4, .num 5]
      rows := some [.num 1, .num 2, .num 3, .num 4, .num 5, .num 6] }

/-- Grid of the selection witness: multiple-selection mode with one already
selected row. -/
def gridC4 : Grid :=
  { blankGrid with
      selectionMode := .multiple
      enabled := true
      selectedItems := some [.num 1]
      comparer := Value.beq }

/-- Searchbox of the event witness. -/
def sbC5 : Searchbox := { enabled := true, value := "", allowEmpty := true }

/-- Body geometry of the scroll witness: a scrolled-to-bottom body. -/
def bodyC6 : BodyState :=
  { scrollHeight := 100, offsetHeight := 40, borderHeight := 2, scrollTop := 62
    scrollableTop := false, scrollableBottom := true }

/-- The index the tab synchronisation settles on: the first tab whose id
equals a non-empty `selectedTabId` when one exists, index 0 otherwise. -/
def Tabs.syncIndex (s : TabsState) : Nat :=
  match (if s.selectedTabId ≠ "" then Tabs.firstMatchIdx s.internalTabs s.selectedTabId else none) with
  | some i => i
  | none => 0

/-- State exhibiting the flaw of the tab-synchronisation claim: two tabs,
`selectedTabId` already names the first one, and no selected tab recorded
yet. -/
def tabsC7 : TabsState := ⟨[⟨"a", false⟩, ⟨"b", false⟩], none, "a"⟩

/-- State of the tab-synchronisation witness: `selectedTabId` names the
second tab. -/
def tabsC7W : TabsState := ⟨[⟨"x", false⟩, ⟨"y", true⟩], none, "y"⟩

/-- Grid of the paging witness: page size 2, five filtered rows, currently
on page 0. -/
def gridC8 : Grid := { blankGrid with pageSize := 2, filteredCount := 5, currentIndex := 0 }

/-- Sorter of the non-mutation witness. -/
def sorterC9 : Value → Value → Int := fun a b => numOf a - numOf b

/-- Sort column of the non-mutation witness. -/
def colC9 : Column :=
  { searchable := true, field := ["x"], matcher := none, sorter := some sorterC9 }

/-- Grid of the non-mutation witness: no filter, a sorting column. -/
def gridC9 : Grid := { blankGrid with sortColumn := some colC9 }

/-- Store of the non-mutation witness: one array holding two rows out of
order. -/
def storeC9 : Store := ⟨[[.num 2, .num 1]]⟩

/-- State of the tab-error witness. -/
def tabsC10 : TabsState := ⟨[⟨"a", false⟩], none, ""⟩

/-! ## Theorems -/

/-- Unfolding of one column's verdict in `filterItems` into the shape used
by the specification sentence. -/
theorem columnMatches_iff (c : Column) (row : Value) (t : String) :
    Grid.columnMatches c row t = true ↔
      (c.searchable = true ∧
        ((∃ m, c.matcher = some m ∧
            m t (c.field.map (fun f => Grid.getObjectValueFromPath f row)) = true) ∨
         (c.matcher = none ∧
            ∃ v ∈ c.field.map (fun f => Grid.getObjectValueFromPath f row),
              strContains (jsToLower (jsString v)) t = true))) := by
  unfold Grid.columnMatches
  cases hs : c.searchable <;> cases hm : c.matcher <;>
    simp [hs, hm, List.any_eq_true]

/-- C1, counterexample: with the filter `"a\tb"` (a tab between the two
letters) and a row whose searchable value is `"ab"`, the code's
`filterItems` drops the row, while the claim's whitespace-separated reading
(`filterItemsSpec`) keeps it.  The claim as stated is therefore false of
the code. -/
theorem filterItems_counterexample :
    Grid.filterItems gridC1 [rowC1] = [] ∧
    Grid.filterItemsSpec gridC1 [rowC1] = [rowC1] :=
  ⟨rfl, rfl⟩

/-- C1 (amended: the filter is split at single spaces, not at arbitrary
whitespace): `filterItems` keeps exactly those rows for which every
space-separated term of the lower-cased, trimmed filter is matched by at
least one searchable column — by the column's custom matcher when it has
one, otherwise by a case-insensitive substring test against the string
conversion of one of the column's field values (looked up by dot-separated
path) — and returns the input array unchanged when the filter is empty or
whitespace-only. -/
theorem filterItems_keeps_matching_rows (g : Grid) (items : List Value) :
    (Grid.filterItems g items).Sublist items ∧
    ((jsTrim (jsToLower g.filter) = "" ∨ g.filter = "") →
        Grid.filterItems g items = items) ∧
    (Grid.filterTerm g ≠ "" →
      ∀ row, row ∈ Grid.filterItems g items ↔
        row ∈ items ∧
          ∀ t ∈ jsSplit ' ' (Grid.filterTerm g), Grid.rowMatchesClaim g row t) := by
  refine ⟨?_, ?_, ?_⟩
  · unfold Grid.filterItems
    by_cases h : Grid.filterTerm g = "" <;> simp [h, List.filter_sublist]
  · intro h
    have ht : Grid.filterTerm g = "" := by
      unfold Grid.filterTerm
      rcases h with h | h
      · by_cases hf : g.filter = "" <;> simp [hf, h]
      · simp [h]
    simp [Grid.filterItems, ht]
  · intro hne row
    unfold Grid.filterItems
    rw [if_neg hne]
    simp [List.mem_filter, List.all_eq_true, List.any_eq_true, columnMatches_iff,
      Grid.rowMatchesClaim]

/-- Witness for the amended filtering theorem at a concrete grid and row
set. -/
theorem filterItems_keeps_matching_rows_witness :
    (Grid.filterTerm gridC1W ≠ "") ∧
    (Value.obj [("x", Value.str "catalog dogma")] ∈ Grid.filterItems gridC1W rowsC1W ↔
      Value.obj [("x", Value.str "catalog dogma")] ∈ rowsC1W ∧
        ∀ t ∈ jsSplit ' ' (Grid.filterTerm gridC1W),
          Grid.rowMatchesClaim gridC1W (Value.obj [("x", Value.str "catalog dogma")]) t) :=
  ⟨by decide, (filterItems_keeps_matching_rows gridC1W rowsC1W).2.2 (by decide) _⟩

/-- C2: `sortItems` leaves the array untouched when no sort column is set;
with a sort column it returns a sorted copy: a permutation of the input
that is sorted by the custom sorter times the order multiplier (`-1` when
`sortOrder` is `'desc'`) when the column has a sorter, and by
`defaultCompare` on the column's field values times the multiplier
otherwise (sortedness holds whenever the induced comparison is transitive
and total, which the ECMAScript sort contract presupposes); and
`defaultCompare` orders an undefined value before a defined one, compares
string values with the locale-aware comparison, compares other unequal
values with `<`, and moves to the next field value on ties. -/
theorem sortItems_sorted (g : Grid) (items : List Value) :
    (g.sortColumn = none → Grid.sortItems g items = items) ∧
    (∀ col, g.sortColumn = some col → (Grid.sortItems g items).Perm items) ∧
    (∀ col f, g.sortColumn = some col → col.sorter = some f →
      (∀ a b c : Value, f a b * g.orderMultiplier ≤ 0 → f b c * g.orderMultiplier ≤ 0 →
          f a c * g.orderMultiplier ≤ 0) →
      (∀ a b : Value, f a b * g.orderMultiplier ≤ 0 ∨ f b a * g.orderMultiplier ≤ 0) →
      (Grid.sortItems g items).Sorted (fun a b => f a b * g.orderMultiplier ≤ 0)) ∧
    (∀ col, g.sortColumn = some col → col.sorter = none →
      (∀ a b c : Value,
          Grid.defaultCompare g.localeCompare
              (col.field.map (fun fl => Grid.getObjectValueFromPath fl a))
              (col.field.map (fun fl => Grid.getObjectValueFromPath fl b)) * g.orderMultiplier ≤ 0 →
          Grid.defaultCompare g.localeCompare
              (col.field.map (fun fl => Grid.getObjectValueFromPath fl b))
              (col.field.map (fun fl => Grid.getObjectValueFromPath fl c)) * g.orderMultiplier ≤ 0 →
          Grid.defaultCompare g.localeCompare
              (col.field.map (fun fl => Grid.getObjectValueFromPath fl a))
              (col.field.map (fun fl => Grid.getObjectValueFromPath fl c)) * g.orderMultiplier ≤ 0) →
      (∀ a b : Value,
          Grid.defaultCompare g.localeCompare
              (col.field.map (fun fl => Grid.getObjectValueFromPath fl a))
              (col.field.map (fun fl => Grid.getObjectValueFromPath fl b)) * g.orderMultiplier ≤ 0 ∨
          Grid.defaultCompare g.localeCompare
              (col.field.map (fun fl => Grid.getObjectValueFromPath fl b))
              (col.field.map (fun fl => Grid.getObjectValueFromPath fl a)) * g.orderMultiplier ≤ 0) →
      (Grid.sortItems g items).Sorted (fun a b =>
          Grid.defaultCompare g.localeCompare
              (col.field.map (fun fl => Grid.getObjectValueFromPath fl a))
              (col.field.map (fun fl => Grid.getObjectValueFromPath fl b)) * g.orderMultiplier ≤ 0)) ∧
    (∀ (locale : String → String → Int) (b : Value) (as bs : List Value), isUndefined b = false →
      Grid.defaultCompare locale (Value.undefined :: as) (b :: bs) = -1) ∧
    (∀ (locale : String → String → Int) (a : Value) (as bs : List Value), isUndefined a = false →
      Grid.defaultCompare locale (a :: as) (Value.undefined :: bs) = 1) ∧
    (∀ (locale : String → String → Int) (sa sb : String) (as bs : List Value),
      locale sa sb ≠ 0 →
      Grid.defaultCompare locale (Value.str sa :: as) (Value.str sb :: bs) = locale sa sb) ∧
    (∀ (locale : String → String → Int) (sa sb : String) (as bs : List Value),
      locale sa sb = 0 →
      Grid.defaultCompare locale (Value.str sa :: as) (Value.str sb :: bs) =
        Grid.defaultCompare locale as bs) ∧
    (∀ (locale : String → String → Int) (x y : Int) (as bs : List Value), x ≠ y →
      Grid.defaultCompare locale (Value.num x :: as) (Value.num y :: bs) =
        (if x < y then -1 else 1)) ∧
    (∀ (locale : String → String → Int) (x : Int) (as bs : List Value),
      Grid.defaultCompare locale (Value.num x :: as) (Value.num x :: bs) =
        Grid.defaultCompare locale as bs) := by
  refine ⟨?_, ?_, ?_, ?_, ?_, ?_, ?_, ?_, ?_, ?_⟩
  · intro h
    simp [Grid.sortItems, h]
  · intro col h
    cases hf : col.sorter <;>
      simp [Grid.sortItems, h, hf, Grid.jsSortBy, List.perm_insertionSort]
  · intro col f h hf htr hto
    haveI : IsTrans Value (fun a b => f a b * g.orderMultiplier ≤ 0) := ⟨htr⟩
    haveI : IsTotal Value (fun a b => f a b * g.orderMultiplier ≤ 0) := ⟨hto⟩
    simpa [Grid.sortItems, h, hf, Grid.jsSortBy] using
      List.sorted_insertionSort (fun a b => f a b * g.orderMultiplier ≤ 0) items
  · intro col h hf htr hto
    haveI : IsTrans Value (fun a b =>
        Grid.defaultCompare g.localeCompare
            (col.field.map (fun fl => Grid.getObjectValueFromPath fl a))
            (col.field.map (fun fl => Grid.getObjectValueFromPath fl b)) * g.orderMultiplier ≤ 0) :=
      ⟨htr⟩
    haveI : IsTotal Value (fun a b =>
        Grid.defaultCompare g.localeCompare
            (col.field.map (fun fl => Grid.getObjectValueFromPath fl a))
            (col.field.map (fun fl => Grid.getObjectValueFromPath fl b)) * g.orderMultiplier ≤ 0) :=
      ⟨hto⟩
    simpa [Grid.sortItems, h, hf, Grid.jsSortBy] using
      List.sorted_insertionSort (fun a b =>
        Grid.defaultCompare g.localeCompare
            (col.field.map (fun fl => Grid.getObjectValueFromPath fl a))
            (col.field.map (fun fl => Grid.getObjectValueFromPath fl b)) * g.orderMultiplier ≤ 0)
        items
  · intro locale b as bs hb
    cases b <;> simp_all [Grid.defaultCompare, isUndefined]
  · intro locale a as bs ha
    cases a <;> simp_all [Grid.defaultCompare, isUndefined]
  · intro locale sa sb as bs hc
    simp [Grid.defaultCompare, isUndefined, jsString, hc]
  · intro locale sa sb as bs hc
    simp [Grid.defaultCompare, isUndefined, jsString, hc]
  · intro locale x y as bs hxy
    simp [Grid.defaultCompare, isUndefined, Value.beq, hxy, jsLess, toPrimitive, toNumber]
  · intro locale x as bs
    simp [Grid.defaultCompare, isUndefined, Value.beq]

/-- Witness for the sorting theorem at a concrete grid: the custom sorter's
consistency hypotheses hold, the result is a sorted permutation, and the
model evaluates to the expected list. -/
theorem sortItems_sorted_witness :
    ((Grid.sortItems gridC2 itemsC2).Perm itemsC2 ∧
      (Grid.sortItems gridC2 itemsC2).Sorted
        (fun a b => sorterC2 a b * gridC2.orderMultiplier ≤ 0)) ∧
    Grid.sortItems gridC2 itemsC2 = [.num 1, .num 2, .num 3] ∧
    Grid.defaultCompare (fun _ _ => 0) [Value.undefined] [Value.num 3] = -1 := by
  obtain ⟨h1, h2, h3, h4, h5, h6, h7, h8, h9, h10⟩ := sortItems_sorted gridC2 itemsC2
  refine ⟨⟨h2 colC2 rfl, h3 colC2 sorterC2 rfl rfl ?_ ?_⟩, by rfl, h5 _ _ _ _ rfl⟩
  · intro a b c hab hbc
    simp [sorterC2, Grid.orderMultiplier, gridC2, blankGrid] at *
    omega
  · intro a b
    simp [sorterC2, Grid.orderMultiplier, gridC2, blankGrid]
    omega

/-- For a positive divisor, `Int.fdiv` is the floor of the rational
quotient, i.e. the `Math.floor(a / b)` of the source. -/
theorem floorDiv_eq_floor (a b : Int) (hb : 0 < b) :
    floorDiv a b = ⌊(a : ℚ) / (b : ℚ)⌋ := by
  obtain ⟨n, rfl⟩ : ∃ n : ℕ, b = (n : Int) := ⟨b.toNat, (Int.toNat_of_nonneg hb.le).symm⟩
  have h1 : (((n : Int)) : ℚ) = (n : ℚ) := by push_cast; rfl
  rw [floorDiv, Int.fdiv_eq_ediv _ hb.le, h1, Rat.floor_intCast_div_natCast]

/-- For a positive divisor, `ceilDiv` is the ceiling of the rational
quotient, i.e. the `Math.ceil(a / b)` of the source. -/
theorem ceilDiv_eq_ceil (a b : Int) (hb : 0 < b) :
    ceilDiv a b = ⌈(a : ℚ) / (b : ℚ)⌉ := by
  have h := floorDiv_eq_floor (-a) b hb
  rw [ceilDiv, ← floorDiv, h, Int.cast_neg, neg_div, Int.floor_neg, neg_neg]

/-- C3: with a positive page size, `pageCount` is the ceiling of
`filteredCount / pageSize` (of `1 / pageSize` when `filteredCount ≤ 0`),
`currentPage` is the floor of `currentIndex / pageSize`, and the default
`loadData` delegate answers the current request (whose `skip` is
`pageSize * currentPage` and whose `take` is `pageSize`) with
`actualRows.slice(skip, skip + take)`, `filteredCount = actualRows.length`
(`-1` when `actualRows` is undefined) and `totalCount = rows.length`
(`-1` when `rows` is undefined). -/
theorem pagination_spec (g : Grid) (h : 0 < g.pageSize) :
    g.pageCount =
      ⌈(((if g.filteredCount > 0 then g.filteredCount else 1) : Int) : ℚ) / (g.pageSize : ℚ)⌉ ∧
    g.currentPage = ⌊(g.currentIndex : ℚ) / (g.pageSize : ℚ)⌋ ∧
    (Grid.getCurrentGridDataRequest g).skip = g.pageSize * g.currentPage ∧
    (Grid.getCurrentGridDataRequest g).take = g.pageSize ∧
    (Grid.loadData g (Grid.getCurrentGridDataRequest g)).items =
      g.actualRows.map (fun rows =>
        jsSlice rows (g.pageSize * g.currentPage) (g.pageSize * g.currentPage + g.pageSize)) ∧
    (∀ rows, g.actualRows = some rows →
      (Grid.loadData g (Grid.getCurrentGridDataRequest g)).filteredCount = rows.length) ∧
    (g.actualRows = none →
      (Grid.loadData g (Grid.getCurrentGridDataRequest g)).filteredCount = -1) ∧
    (∀ rows, g.rows = some rows →
      (Grid.loadData g (Grid.getCurrentGridDataRequest g)).totalCount = rows.length) ∧
    (g.rows = none →
      (Grid.loadData g (Grid.getCurrentGridDataRequest g)).totalCount = -1) := by
  refine ⟨?_, ?_, rfl, rfl, rfl, ?_, ?_, ?_, ?_⟩
  · rw [Grid.pageCount, ceilDiv_eq_ceil _ _ h]
  · rw [Grid.currentPage, Grid.getPageNumberForIndex, floorDiv_eq_floor _ _ h]
  · intro rows hr
    simp [Grid.loadData, hr]
  · intro hr
    simp [Grid.loadData, hr]
  · intro rows hr
    simp [Grid.loadData, hr]
  · intro hr
    simp [Grid.loadData, hr]

/-- Witness for the pagination theorem at a concrete grid, together with
the concrete evaluation of the served page. -/
theorem pagination_spec_witness :
    (0 < gridC3.pageSize) ∧
    gridC3.pageCount =
      ⌈(((if gridC3.filteredCount > 0 then gridC3.filteredCount else 1) : Int) : ℚ) /
        (gridC3.pageSize : ℚ)⌉ ∧
    (Grid.loadData gridC3 (Grid.getCurrentGridDataRequest gridC3)).items =
      some [Value.num 5] ∧
    gridC3.pageCount = 3 ∧ gridC3.currentPage = 2 :=
  ⟨by decide, (pagination_spec gridC3 (by decide)).1, by rfl, by decide, by decide⟩

/-- Bridge between the source's `filter(...).length > 0` test and the
existence of a comparer-equal element. -/
theorem filter_length_pos_iff_any (l : List Value) (p : Value → Bool) :
    ((l.filter p).length > 0) ↔ l.any p = true := by
  rw [gt_iff_lt, List.length_pos, Ne, List.filter_eq_nil_iff, List.any_eq_true]
  push_neg
  simp

/-- C4: `selectRow` with the grid enabled toggles `selectedItem` in
`'single'` mode (clearing it when the clicked row compares equal to it),
and in `'multiple'` mode removes the clicked row from `selectedItems` when
some element compares equal to it and appends it to a copy otherwise,
afterwards exposing `selectedItems[0]` as `selectedItem` when at most one
element remains and `undefined` otherwise; a disabled grid or `'none'` mode
changes nothing. -/
theorem selectRow_selection (g : Grid) (row : Value) :
    (g.enabled = true → g.selectionMode = SelectionMode.single →
      (Grid.selectRow g row).1.selectedItem =
          (if g.comparer g.selectedItem row then Value.undefined else row) ∧
      (Grid.selectRow g row).1.selectedItems = g.selectedItems) ∧
    (g.enabled = true → g.selectionMode = SelectionMode.multiple →
      ∀ items, g.selectedItems = some items →
        (items.any (fun a => g.comparer a row) = true →
          (Grid.selectRow g row).1.selectedItems =
            some (items.filter (fun i => !(g.comparer i row)))) ∧
        (items.any (fun a => g.comparer a row) = false →
          (Grid.selectRow g row).1.selectedItems = some (items ++ [row])) ∧
        (∀ newItems, (Grid.selectRow g row).1.selectedItems = some newItems →
          (Grid.selectRow g row).1.selectedItem =
            (if newItems.length ≤ 1 then newItems.headD Value.undefined else Value.undefined))) ∧
    ((g.enabled = false ∨ g.selectionMode = SelectionMode.none) →
      (Grid.selectRow g row).1 = g) := by
  refine ⟨?_, ?_, ?_⟩
  · intro he hm
    simp [Grid.selectRow, he, hm]
  · intro he hm items hitems
    have hcond := filter_length_pos_iff_any items (fun a => g.comparer a row)
    refine ⟨?_, ?_, ?_⟩
    · intro hany
      simp [Grid.selectRow, he, hm, hitems, hcond.mpr hany]
    · intro hany
      have hc : ¬ ((items.filter (fun a => g.comparer a row)).length > 0) := by
        rw [hcond]
        simp [hany]
      simp [Grid.selectRow, he, hm, hitems, hc]
    · intro newItems hnew
      by_cases hany : items.any (fun a => g.comparer a row) = true
      · simp only [Grid.selectRow, he, hm, hitems, if_pos (hcond.mpr hany)] at hnew ⊢
        simp at hnew
        subst hnew
        simp
      · have hc : ¬ ((items.filter (fun a => g.comparer a row)).length > 0) := by
          rw [hcond]
          simpa using hany
        simp only [Grid.selectRow, he, hm, hitems, if_neg hc] at hnew ⊢
        simp at hnew
        subst hnew
        simp
  · intro hd
    rcases hd with hd | hd
    · simp [Grid.selectRow, hd]
    · cases he : g.enabled
      · simp [Grid.selectRow, he]
      · simp [Grid.selectRow, he, hd]

/-- Witness for the selection theorem: clicking a new row in multiple mode
appends it, and with two selected rows `selectedItem` becomes undefined. -/
theorem selectRow_selection_witness :
    (Grid.selectRow gridC4 (Value.num 2)).1.selectedItems = some [Value.num 1, Value.num 2] ∧
    (Grid.selectRow gridC4 (Value.num 2)).1.selectedItem = Value.undefined := by
  have h := (selectRow_selection gridC4 (Value.num 2)).2.1 rfl rfl [Value.num 1] rfl
  have happ : (Grid.selectRow gridC4 (Value.num 2)).1.selectedItems =
      some ([Value.num 1] ++ [Value.num 2]) := h.2.1 (by decide)
  refine ⟨happ, ?_⟩
  have := h.2.2 [Value.num 1, Value.num 2] happ
  simpa using this

/-- C5: `selectRow` dispatches exactly one `'selection-changed'` custom
event — whose detail carries the post-update `selectedItem` and
`selectedItems` — precisely when the grid is enabled and the selection mode
is `'single'` or `'multiple'`; and the searchbox's `onClick` dispatches its
`'click'` custom event if and only if the searchbox is enabled and its
value is non-empty or `allowEmpty` is set. -/
theorem dispatch_events_spec (g : Grid) (row : Value) (sb : Searchbox) :
    (g.enabled = true →
      (g.selectionMode = SelectionMode.single ∨ g.selectionMode = SelectionMode.multiple) →
      (Grid.selectRow g row).2 =
        [("selection-changed",
          ⟨(Grid.selectRow g row).1.selectedItem, (Grid.selectRow g row).1.selectedItems⟩)]) ∧
    ((g.enabled = false ∨ g.selectionMode = SelectionMode.none) →
      (Grid.selectRow g row).2 = []) ∧
    (Searchbox.onClick sb = true ↔
      (sb.enabled = true ∧ (sb.value ≠ "" ∨ sb.allowEmpty = true))) := by
  refine ⟨?_, ?_, ?_⟩
  · intro he hm
    rcases hm with hm | hm <;> simp [Grid.selectRow, he, hm]
  · intro hd
    rcases hd with hd | hd
    · simp [Grid.selectRow, hd]
    · cases he : g.enabled
      · simp [Grid.selectRow, he]
      · simp [Grid.selectRow, he, hd]
  · simp [Searchbox.onClick, Bool.and_eq_true, Bool.or_eq_true]

/-- Witness for the event-dispatch theorem: an enabled grid in single mode
dispatches the selection event, and an empty but `allowEmpty` searchbox
dispatches the click event. -/
theorem dispatch_events_spec_witness :
    (Grid.selectRow { blankGrid with selectionMode := .single } (Value.num 7)).2 =
      [("selection-changed",
        ⟨(Grid.selectRow { blankGrid with selectionMode := .single } (Value.num 7)).1.selectedItem,
         (Grid.selectRow { blankGrid with selectionMode := .single } (Value.num 7)).1.selectedItems⟩)] ∧
    Searchbox.onClick sbC5 = true := by
  have h := dispatch_events_spec { blankGrid with selectionMode := .single } (Value.num 7) sbC5
  exact ⟨h.1 rfl (Or.inl rfl), h.2.2.mpr ⟨rfl, Or.inr rfl⟩⟩

/-- C6: on every body scroll event, when `scrollBottom` (scroll height
minus offset height plus border height) is zero both scroll-edge classes
are removed; otherwise `scrollable-top` is present exactly when `scrollTop`
is non-zero and `scrollable-bottom` exactly when `scrollTop` differs from
`scrollBottom`. -/
theorem onBodyScroll_spec (s : BodyState) :
    (Grid.scrollBottom s = 0 →
      (Grid.onBodyScroll s).scrollableTop = false ∧
      (Grid.onBodyScroll s).scrollableBottom = false) ∧
    (Grid.scrollBottom s ≠ 0 →
      ((Grid.onBodyScroll s).scrollableTop = true ↔ s.scrollTop ≠ 0) ∧
      ((Grid.onBodyScroll s).scrollableBottom = true ↔ s.scrollTop ≠ Grid.scrollBottom s)) := by
  refine ⟨fun h0 => by simp [Grid.onBodyScroll, h0], fun h0 => ?_⟩
  by_cases h1 : s.scrollTop = 0 <;> by_cases h2 : s.scrollTop = Grid.scrollBottom s
  · exact absurd (h1 ▸ h2).symm h0
  · simp only [h1] at h2
    simp [Grid.onBodyScroll, h0, h1, h2]
  · simp [Grid.onBodyScroll, h0, h1, h2]
  · simp [Grid.onBodyScroll, h0, h1, h2]

/-- Witness for the scroll-edge theorem: at the bottom of a scrollable
body, `scrollable-top` is set and `scrollable-bottom` is cleared. -/
theorem onBodyScroll_spec_witness :
    (Grid.scrollBottom bodyC6 ≠ 0) ∧
    (Grid.onBodyScroll bodyC6).scrollableTop = true ∧
    (Grid.onBodyScroll bodyC6).scrollableBottom = false := by
  have h := (onBodyScroll_spec bodyC6).2 (by decide)
  exact ⟨by decide, h.1.mpr (by decide), by
    have hb := h.2
    cases hcb : (Grid.onBodyScroll bodyC6).scrollableBottom
    · rfl
    · exact absurd (hb.mp hcb) (by decide)⟩

/-- A found index of `firstMatchIdx` is in range. -/
theorem firstMatchIdx_lt (tabs : List Tab) (tid : String) (i : Nat)
    (h : Tabs.firstMatchIdx tabs tid = some i) : i < tabs.length := by
  induction tabs generalizing i with
  | nil => simp [Tabs.firstMatchIdx] at h
  | cons t ts ih =>
    by_cases ht : t.id = tid
    · simp [Tabs.firstMatchIdx, ht] at h
      simp only [List.length_cons]
      omega
    · simp [Tabs.firstMatchIdx, ht] at h
      obtain ⟨j, hj, rfl⟩ := h
      have := ih j hj
      simp only [List.length_cons]
      omega

/-- The tab found by `firstMatchIdx` carries the searched id. -/
theorem firstMatchIdx_id (tabs : List Tab) (tid : String) (i : Nat)
    (h : Tabs.firstMatchIdx tabs tid = some i) : (tabs.getD i default).id = tid := by
  induction tabs generalizing i with
  | nil => simp [Tabs.firstMatchIdx] at h
  | cons t ts ih =>
    by_cases ht : t.id = tid
    · simp [Tabs.firstMatchIdx, ht] at h
      subst h
      simpa using ht
    · simp [Tabs.firstMatchIdx, ht] at h
      obtain ⟨j, hj, rfl⟩ := h
      simpa using ih j hj

/-- Behaviour of `selectTab` on an in-range tab reference. -/
theorem selectTab_ok (s : TabsState) (i : Nat) (hi : i < s.internalTabs.length) :
    (Tabs.selectTab s i).2 = none ∧
    (Tabs.selectTab s i).1.internalTabs =
      s.internalTabs.mapIdx (fun j t => { t with active := j == i }) ∧
    (Tabs.selectTab s i).1.selectedTabId = (s.internalTabs.getD i default).id ∧
    (s.selectedTabId ≠ (s.internalTabs.getD i default).id →
      (Tabs.selectTab s i).1.selectedTab = some i) ∧
    (s.selectedTabId = (s.internalTabs.getD i default).id →
      (Tabs.selectTab s i).1.selectedTab = s.selectedTab) := by
  have hg : s.internalTabs.getD i default = s.internalTabs[i] := List.getD_eq_getElem _ _ hi
  by_cases heq : s.selectedTabId = (s.internalTabs.getD i default).id <;>
    rw [hg] at heq <;> simp [Tabs.selectTab, hi, hg, heq]

/-- C7, counterexample: `selectedTabId` is non-empty and the first tab's id
equals it, yet after `updateSelectedTab` the recorded selected tab is still
`none` — the matching tab did not become the selected tab, because
`selectTab` only assigns `selectedTab` when `selectedTabId` differs from
the tab's id.  (The active flags are synchronised nonetheless.) -/
theorem updateSelectedTab_counterexample :
    tabsC7.selectedTabId = "a" ∧
    tabsC7.internalTabs.map Tab.id = ["a", "b"] ∧
    (Tabs.updateSelectedTab tabsC7).2 = none ∧
    (Tabs.updateSelectedTab tabsC7).1.internalTabs.map Tab.active = [true, false] ∧
    (Tabs.updateSelectedTab tabsC7).1.selectedTab = none := by
  decide

/-- C7 (amended: the tab the synchronisation settles on becomes the active
tab, while the `selectedTab` field and `selectedTabId` are (re)assigned
only when `selectedTabId` differs from that tab's id): after a sync on a
non-empty tab list no error occurs, the active flag is true for exactly the
settled tab — the first tab whose id equals a non-empty `selectedTabId`
when one exists, the first tab otherwise — and `selectedTabId` ends up
equal to the settled tab's id; `selectedTab` is set to the settled tab when
`selectedTabId` differed from its id and is left unchanged otherwise. -/
theorem updateSelectedTab_sync (s : TabsState) (h : s.internalTabs ≠ []) :
    (Tabs.updateSelectedTab s).2 = none ∧
    Tabs.syncIndex s < s.internalTabs.length ∧
    (Tabs.updateSelectedTab s).1.internalTabs =
      s.internalTabs.mapIdx (fun j t => { t with active := j == Tabs.syncIndex s }) ∧
    (∀ j, j < s.internalTabs.length →
      (((Tabs.updateSelectedTab s).1.internalTabs.getD j default).active = true ↔
        j = Tabs.syncIndex s)) ∧
    (Tabs.updateSelectedTab s).1.selectedTabId =
      (s.internalTabs.getD (Tabs.syncIndex s) default).id ∧
    (s.selectedTabId ≠ (s.internalTabs.getD (Tabs.syncIndex s) default).id →
      (Tabs.updateSelectedTab s).1.selectedTab = some (Tabs.syncIndex s)) ∧
    (s.selectedTabId = (s.internalTabs.getD (Tabs.syncIndex s) default).id →
      (Tabs.updateSelectedTab s).1.selectedTab = s.selectedTab) := by
  have hlen0 : 0 < s.internalTabs.length := List.length_pos.mpr h
  have hke : Tabs.updateSelectedTab s = Tabs.selectTab s (Tabs.syncIndex s) ∧
      Tabs.syncIndex s < s.internalTabs.length := by
    by_cases hid : s.selectedTabId = ""
    · refine ⟨?_, ?_⟩
      · simp [Tabs.updateSelectedTab, Tabs.syncIndex, hid, hlen0]
      · simpa [Tabs.syncIndex, hid] using hlen0
    · cases hm : Tabs.firstMatchIdx s.internalTabs s.selectedTabId with
      | none =>
        refine ⟨?_, ?_⟩
        · simp [Tabs.updateSelectedTab, Tabs.syncIndex, hid, hm, hlen0]
        · simpa [Tabs.syncIndex, hid, hm] using hlen0
      | some i =>
        refine ⟨?_, ?_⟩
        · simp [Tabs.updateSelectedTab, Tabs.syncIndex, hid, hm]
        · simpa [Tabs.syncIndex, hid, hm] using firstMatchIdx_lt _ _ _ hm
  obtain ⟨heq, hk⟩ := hke
  have ok := selectTab_ok s (Tabs.syncIndex s) hk
  rw [heq]
  refine ⟨ok.1, hk, ok.2.1, ?_, ok.2.2.1, ok.2.2.2.1, ok.2.2.2.2⟩
  intro j hj
  rw [ok.2.1]
  have hjl : j < (s.internalTabs.mapIdx
      (fun j t => { t with active := j == Tabs.syncIndex s })).length := by
    simpa [List.length_mapIdx] using hj
  rw [List.getD_eq_getElem _ _ hjl, List.getElem_mapIdx]
  simp

/-- Witness for the amended tab-synchronisation theorem at a concrete
state. -/
theorem updateSelectedTab_sync_witness :
    (tabsC7W.internalTabs ≠ []) ∧
    (Tabs.updateSelectedTab tabsC7W).2 = none ∧
    Tabs.syncIndex tabsC7W = 1 ∧
    (Tabs.updateSelectedTab tabsC7W).1.selectedTabId =
      (tabsC7W.internalTabs.getD (Tabs.syncIndex tabsC7W) default).id ∧
    (Tabs.updateSelectedTab tabsC7W).1.selectedTab = tabsC7W.selectedTab := by
  have h := updateSelectedTab_sync tabsC7W (by decide)
  exact ⟨by decide, h.1, by decide, h.2.2.2.2.1, h.2.2.2.2.2.2 (by decide)⟩

/-- C8: `showPage` returns `true` and sets `currentIndex` to
`pageSize * pageNumber` exactly when the requested page differs from the
current page and lies in `[0, pageCount)`; for every other argument it
returns `false` and leaves the state unchanged. -/
theorem showPage_spec (g : Grid) (pageNumber : Int) :
    (pageNumber ≠ g.currentPage ∧ 0 ≤ pageNumber ∧ pageNumber < g.pageCount →
      Grid.showPage g pageNumber = ({ g with currentIndex := g.pageSize * pageNumber }, true)) ∧
    (pageNumber = g.currentPage ∨ pageNumber < 0 ∨ g.pageCount ≤ pageNumber →
      Grid.showPage g pageNumber = (g, false)) := by
  constructor
  · rintro ⟨h1, h2, h3⟩
    simp only [Grid.showPage]
    rw [if_pos ⟨h1, h2, h3⟩]
  · intro hcond
    have hneg : ¬(pageNumber ≠ g.currentPage ∧ pageNumber ≥ 0 ∧ pageNumber < g.pageCount) := by
      rintro ⟨hne, hge, hlt⟩
      rcases hcond with h | h | h
      · exact hne h
      · omega
      · omega
    simp only [Grid.showPage]
    rw [if_neg hneg]

/-- Witness for the paging theorem: jumping to page 2 succeeds and places
the index at 4, while asking for the current page fails. -/
theorem showPage_spec_witness :
    ((2 : Int) ≠ gridC8.currentPage ∧ (0 : Int) ≤ 2 ∧ (2 : Int) < gridC8.pageCount) ∧
    Grid.showPage gridC8 2 = ({ gridC8 with currentIndex := 4 }, true) ∧
    Grid.showPage gridC8 0 = (gridC8, false) := by
  have h := showPage_spec gridC8 2
  have h0 := showPage_spec gridC8 0
  refine ⟨by decide, ?_, h0.2 (Or.inl (by decide))⟩
  exact h.1 (by decide)

/-- Reading an old reference is unaffected by an allocation. -/
theorem store_read_alloc (s : Store) (l : List Value) (r : Nat) (h : r < s.arrays.length) :
    (s.alloc l).1.read r = s.read r := by
  simp only [Store.alloc, Store.read]
  exact List.getD_append _ _ _ _ h

/-- Reading a freshly allocated reference yields the allocated contents. -/
theorem store_read_alloc_new (s : Store) (l : List Value) :
    (s.alloc l).1.read (s.alloc l).2 = l := by
  simp only [Store.alloc, Store.read]
  rw [List.getD_eq_getElem?_getD, List.getElem?_append]
  simp

/-- Writing one reference does not change another. -/
theorem store_read_write_ne (s : Store) (r' : Nat) (l : List Value) (r : Nat) (h : r ≠ r') :
    (s.write r' l).read r = s.read r := by
  simp only [Store.write, Store.read]
  rw [List.getD_eq_getElem?_getD, List.getD_eq_getElem?_getD, List.getElem?_set_ne (Ne.symm h)]

/-- Reading back a written reference yields the written contents. -/
theorem store_read_write_self (s : Store) (r : Nat) (l : List Value) (h : r < s.arrays.length) :
    (s.write r l).read r = l := by
  simp only [Store.write, Store.read]
  rw [List.getD_eq_getElem?_getD, List.getElem?_set_self (by simpa using h)]
  rfl

/-- An empty (or whitespace-only) filter makes `filterItems` the
identity. -/
theorem filterItems_of_empty_term (g : Grid) (items : List Value)
    (hf : Grid.filterTerm g = "") : Grid.filterItems g items = items := by
  simp [Grid.filterItems, hf]

/-- Without a sort column `sortItems` is the identity. -/
theorem sortItems_of_no_column (g : Grid) (items : List Value)
    (hc : g.sortColumn = none) : Grid.sortItems g items = items := by
  simp [Grid.sortItems, hc]

/-- Unfolding of `refreshActualRows` into its two stages. -/
theorem refreshActualRows_eq (g : Grid) (s : Store) (r : Nat) :
    Grid.refreshActualRows g s r =
      Grid.sortItemsRef g (Grid.filterItemsRef g s r).1 (Grid.filterItemsRef g s r).2 := rfl

/-- With an empty filter `filterItemsRef` returns the argument reference. -/
theorem filterItemsRef_of_empty_term (g : Grid) (s : Store) (r : Nat)
    (hf : Grid.filterTerm g = "") : Grid.filterItemsRef g s r = (s, r) := by
  simp [Grid.filterItemsRef, hf]

/-- With a non-empty filter `filterItemsRef` allocates the filtered rows. -/
theorem filterItemsRef_of_term (g : Grid) (s : Store) (r : Nat)
    (hf : Grid.filterTerm g ≠ "") :
    Grid.filterItemsRef g s r = s.alloc (Grid.filterItems g (s.read r)) := by
  simp [Grid.filterItemsRef, hf]

/-- With no sort column `sortItemsRef` returns the argument reference. -/
theorem sortItemsRef_of_no_column (g : Grid) (s : Store) (r : Nat)
    (hc : g.sortColumn = none) : Grid.sortItemsRef g s r = (s, r) := by
  simp [Grid.sortItemsRef, hc]

/-- With a sort column `sortItemsRef` allocates a copy and sorts it in
place. -/
theorem sortItemsRef_of_column (g : Grid) (s : Store) (r : Nat) (col : Column)
    (hc : g.sortColumn = some col) :
    Grid.sortItemsRef g s r =
      (Store.write (s.alloc (s.read r)).1 (s.alloc (s.read r)).2
          (Grid.sortItems g (Store.read (s.alloc (s.read r)).1 (s.alloc (s.read r)).2)),
        (s.alloc (s.read r)).2) := by
  simp [Grid.sortItemsRef, hc]

/-- C9: the `actualRows` computation of `refreshInternal` never mutates the
bound rows array: the array behind the input reference reads the same
after `sortItems (filterItems rows)`, `filterItems` returns either the
input reference itself (empty filter) or a fresh array, and the reference
returned by the whole computation holds exactly the sorted filtered
contents. -/
theorem refresh_preserves_rows (g : Grid) (s : Store) (r : Nat) (h : r < s.arrays.length) :
    (Grid.refreshActualRows g s r).1.read r = s.read r ∧
    ((Grid.filterItemsRef g s r).2 = r ∧ Grid.filterTerm g = "" ∨
      (Grid.filterItemsRef g s r).2 = s.arrays.length ∧ Grid.filterTerm g ≠ "") ∧
    (Grid.refreshActualRows g s r).1.read (Grid.refreshActualRows g s r).2 =
      Grid.sortItems g (Grid.filterItems g (s.read r)) := by
  have halloc2 : ∀ (u : Store) (l : List Value), (u.alloc l).2 = u.arrays.length :=
    fun _ _ => rfl
  have halloclen : ∀ (u : Store) (l : List Value),
      (u.alloc l).1.arrays.length = u.arrays.length + 1 := by
    intro u l
    simp [Store.alloc]
  by_cases hf : Grid.filterTerm g = ""
  · cases hc : g.sortColumn with
    | none =>
      rw [refreshActualRows_eq, filterItemsRef_of_empty_term g s r hf,
        sortItemsRef_of_no_column g s r hc]
      refine ⟨rfl, Or.inl ⟨rfl, hf⟩, ?_⟩
      rw [filterItems_of_empty_term g _ hf, sortItems_of_no_column g _ hc]
    | some col =>
      rw [refreshActualRows_eq, filterItemsRef_of_empty_term g s r hf,
        sortItemsRef_of_column g s r col hc]
      refine ⟨?_, Or.inl ⟨rfl, hf⟩, ?_⟩
      · have hne : r ≠ (s.alloc (s.read r)).2 := by
          rw [halloc2]
          omega
        rw [store_read_write_ne _ _ _ _ hne, store_read_alloc _ _ _ h]
      · have hlt : (s.alloc (s.read r)).2 < (s.alloc (s.read r)).1.arrays.length := by
          rw [halloc2, halloclen]
          omega
        rw [store_read_write_self _ _ _ hlt, store_read_alloc_new,
          filterItems_of_empty_term g _ hf]
  · cases hc : g.sortColumn with
    | none =>
      rw [refreshActualRows_eq, filterItemsRef_of_term g s r hf,
        sortItemsRef_of_no_column g _ _ hc]
      refine ⟨store_read_alloc _ _ _ h, Or.inr ⟨rfl, hf⟩, ?_⟩
      rw [store_read_alloc_new, sortItems_of_no_column g _ hc]
    | some col =>
      rw [refreshActualRows_eq, filterItemsRef_of_term g s r hf,
        sortItemsRef_of_column g _ _ col hc]
      refine ⟨?_, Or.inr ⟨rfl, hf⟩, ?_⟩
      · have hltB : r < (s.alloc (Grid.filterItems g (s.read r))).1.arrays.length := by
          rw [halloclen]
          omega
        have hne : r ≠ ((s.alloc (Grid.filterItems g (s.read r))).1.alloc
            ((s.alloc (Grid.filterItems g (s.read r))).1.read
              (s.alloc (Grid.filterItems g (s.read r))).2)).2 := by
          simp only [halloc2, halloclen]
          omega
        rw [store_read_write_ne _ _ _ _ hne, store_read_alloc _ _ _ hltB,
          store_read_alloc _ _ _ h]
      · have hlt2 : ((s.alloc (Grid.filterItems g (s.read r))).1.alloc
            ((s.alloc (Grid.filterItems g (s.read r))).1.read
              (s.alloc (Grid.filterItems g (s.read r))).2)).2 <
            ((s.alloc (Grid.filterItems g (s.read r))).1.alloc
              ((s.alloc (Grid.filterItems g (s.read r))).1.read
                (s.alloc (Grid.filterItems g (s.read r))).2)).1.arrays.length := by
          simp only [halloc2, halloclen]
          omega
        rw [store_read_write_self _ _ _ hlt2, store_read_alloc_new, store_read_alloc_new]

/-- Witness for the non-mutation theorem: after refreshing, the original
array still reads `[2, 1]` while the result reference holds `[1, 2]`. -/
theorem refresh_preserves_rows_witness :
    (0 < storeC9.arrays.length) ∧
    (Grid.refreshActualRows gridC9 storeC9 0).1.read 0 = storeC9.read 0 ∧
    storeC9.read 0 = [Value.num 2, Value.num 1] ∧
    (Grid.refreshActualRows gridC9 storeC9 0).1.read (Grid.refreshActualRows gridC9 storeC9 0).2 =
      [Value.num 1, Value.num 2] := by
  have h := refresh_preserves_rows gridC9 storeC9 0 (by decide)
  refine ⟨by decide, h.1, by rfl, ?_⟩
  rw [h.2.2]
  rfl

/-- C10: `selectTab` throws `'Tab could not be found.'` — leaving the tab
flags, the selected tab and `selectedTabId` untouched, since the throw
happens before any mutation — exactly when the referenced tab is not in
the internal tab list; for a tab in the list no error is thrown. -/
theorem selectTab_error (s : TabsState) (i : Nat) :
    (s.internalTabs.length ≤ i →
      Tabs.selectTab s i = (s, some "Tab could not be found.")) ∧
    (i < s.internalTabs.length → (Tabs.selectTab s i).2 = none) := by
  constructor
  · intro hle
    have hnot : ¬ i < s.internalTabs.length := by omega
    simp [Tabs.selectTab, hnot]
  · intro hlt
    have hg : s.internalTabs.getD i default = s.internalTabs[i] := List.getD_eq_getElem _ _ hlt
    by_cases heq : s.selectedTabId = (s.internalTabs.getD i default).id <;>
      rw [hg] at heq <;> simp [Tabs.selectTab, hlt, heq]

/-- Witness for the tab-error theorem: selecting a tab reference outside
the singleton list throws and returns the state unchanged, selecting the
only tab does not throw. -/
theorem selectTab_error_witness :
    (tabsC10.internalTabs.length ≤ 5) ∧
    Tabs.selectTab tabsC10 5 = (tabsC10, some "Tab could not be found.") ∧
    (0 < tabsC10.internalTabs.length) ∧
    (Tabs.selectTab tabsC10 0).2 = none := by
  have h := selectTab_error tabsC10 5
  have h0 := selectTab_error tabsC10 0
  exact ⟨by decide, h.1 (by decide), by decide, h0.2 (by decide)⟩

end AureliaBs

